import Mathlib

/-!
Verification development for the mobile in-app-purchase (IAP) API v1 of the
ecommerce repository: the add-to-basket, checkout and purchase-execution
endpoints.

The repository snapshot provides `constants.py` (the user-facing and logger
message catalog), `urls.py` (routing) and the endpoint test-suite
`tests/test_views.py`.  The view module itself (`views.py`, holding
`MobileBasketAddItemsView`, `MobileCheckoutView` and
`MobileCoursePurchaseExecutionView`) is not part of the snapshot, so the
control flow of the three endpoints is modelled from the specification's
component design (CheckoutInitiator, PurchaseExecutionCoordinator,
DuplicateGuard, add-to-basket flow); the message strings come verbatim from
`constants.py`.

External collaborators (store receipt validator, payment layer, Django ORM)
are modelled as oracle parameters: each call that can fail independently is
an explicit outcome argument of the view function.
-/

/-- Status of an Oscar basket: `Open`, `Frozen` (checkout started) or
`Submitted` (order placed). -/
inductive BasketStatus where
  | Open
  | Frozen
  | Submitted
deriving DecidableEq, Repr

/-- A basket record: identifier, owning user and status. -/
structure Basket where
  id : Nat
  owner : Nat
  status : BasketStatus
deriving DecidableEq, Repr

/-- An order record: order number and the basket it was placed for.  The
order-placement subsystem creates at most one order per basket. -/
structure Order where
  number : Nat
  basketId : Nat
deriving DecidableEq, Repr

/-- The storage collaborator: baskets and orders. -/
structure Store where
  baskets : List Basket
  orders : List Order
deriving DecidableEq, Repr

/- Message catalog, from src/ecommerce/extensions/iap/api/v1/constants.py.
Templated messages are modelled as functions of their placeholder. -/

def COURSE_ALREADY_PAID_ON_DEVICE : String :=
  "The course has already been paid for on this device by the associated Apple ID."

def ERROR_ALREADY_PURCHASED : String :=
  "You have already purchased these products"

def ERROR_BASKET_NOT_FOUND (basketId : Nat) : String :=
  "Basket [" ++ toString basketId ++ "] not found."

def ERROR_BASKET_ID_NOT_PROVIDED : String :=
  "Basket id is not provided"

def ERROR_DURING_ORDER_CREATION : String :=
  "An error occurred during order creation."

def ERROR_DURING_PAYMENT_HANDLING : String :=
  "An error occurred during payment handling."

def ERROR_DURING_POST_ORDER_OP : String :=
  "An error occurred during post order operations."

def ERROR_WHILE_OBTAINING_BASKET_FOR_USER (userIdentity : String) : String :=
  "An unexpected exception occurred while obtaining basket for user [" ++ userIdentity ++ "]."

def LOGGER_BASKET_NOT_FOUND (basketId : Nat) : String :=
  "Basket [" ++ toString basketId ++ "] not found."

def LOGGER_PAYMENT_APPROVED (paymentId : String) (payerId : String) : String :=
  "Payment [" ++ paymentId ++ "] approved by payer [" ++ payerId ++ "]"

def LOGGER_PAYMENT_FAILED_FOR_BASKET (basketId : Nat) : String :=
  "Attempts to handle payment for basket [" ++ toString basketId ++ "] failed."

def NO_PRODUCT_AVAILABLE : String :=
  "No product is available to buy."

def PRODUCTS_DO_NOT_EXIST (skus : List String) : String :=
  "Products with SKU(s) [" ++ String.intercalate ", " skus ++ "] do not exist."

/-- Order-failure log line emitted when payment was received but placement
failed, naming the processor and the basket id (format string from the
test-suite setup). -/
def ORDER_FAILURE_LOG (processorTitle : String) (basketId : Nat) : String :=
  "Order Failure: " ++ processorTitle ++
  " payment was received, but an order for basket [" ++ toString basketId ++
  "] could not be placed."

/-- Severity of a log record. -/
inductive LogLevel where
  | info
  | error
deriving DecidableEq, Repr

/-- One log record: severity and rendered message. -/
structure LogEntry where
  level : LogLevel
  msg : String
deriving DecidableEq, Repr

/-- A JSON response body: either an error object, the serialized order
payload, or the checkout payload with payment page url and processor name. -/
inductive RespBody where
  | errorMsg (msg : String)
  | orderData (o : Order)
  | checkoutData (paymentPageUrl : String) (processorName : String)
  | basketSummary (lines : List String)
deriving DecidableEq, Repr

/-- An HTTP response: status code and JSON body. -/
structure HttpResponse where
  status : Nat
  body : RespBody
deriving DecidableEq, Repr

/-- An execute request as posted by the mobile client: optional basket id,
transaction id, authenticated user (id and identity string) and the payment
processor. -/
structure ExecuteRequest where
  basketId : Option Nat
  transactionId : String
  user : Nat
  userEmail : String
  processorTitle : String
deriving DecidableEq, Repr

/-- Outcome reported by the payment-handling step (the store receipt
validator plus payment recording), which is an external collaborator. -/
inductive PaymentOutcome where
  | success
  | paymentFailure
  | redundantNotice
  | unanticipatedFailure
deriving DecidableEq, Repr

/-- Outcome chosen by the order-placement collaborator when no order for the
basket exists yet. -/
inductive PlacementOutcome where
  | placed
  | cannotPlace
  | unanticipatedFailure
deriving DecidableEq, Repr

/-- Number of orders referencing a given basket. -/
def countOrders (st : Store) (basketId : Nat) : Nat :=
  (st.orders.filter (fun o => o.basketId == basketId)).length

/-- Look up a basket by id belonging to a given user. -/
def findBasket (st : Store) (user : Nat) (basketId : Nat) : Option Basket :=
  st.baskets.find? (fun b => b.id == basketId && b.owner == user)

/-- The order created for a basket: the order number derives from the
basket. -/
def newOrder (b : Basket) : Order :=
  { number := b.id, basketId := b.id }

/-- Result of handling one execute request: the HTTP response, the log
records emitted by the view (in emission order) and the updated store. -/
structure ExecuteResult where
  resp : HttpResponse
  logs : List LogEntry
  store : Store
deriving DecidableEq, Repr

/-- Modelled from the spec: `MobileCoursePurchaseExecutionView` (views.py is
not in the snapshot).  The PurchaseExecutionCoordinator state machine of
spec section 4.3, with the error catalog of `constants.py`:

1. resolve the basket by id for the authenticated user; missing id, basket
   not found and unexpected resolution exception are classified 400 errors;
2. run the payment-handling step, logging the attempt (transaction id and
   payer id) at info level before its outcome is known; a classified payment
   error or an unclassified exception both yield the generic 400
   payment-handling error, the unclassified one adding an error log with the
   basket id; a redundant-payment notice short-circuits to 409 with the
   already-paid-on-device message;
3. place the order; the order-placement subsystem refuses to create a second
   order for a basket that already has one; any placement failure yields the
   400 order-creation error plus an error log naming processor and basket;
4. run post-order hooks; failure there keeps status 200 with a distinct
   error body, the order having been created.

The external collaborators' outcomes are oracle arguments: `resolverFault`
(an unexpected exception inside basket resolution), `pay` (payment layer),
`placement` (order placement when the basket has no order yet) and
`postOrderFails` (post-order hooks). -/
def executeView (st : Store) (req : ExecuteRequest) (resolverFault : Bool)
    (pay : PaymentOutcome) (placement : PlacementOutcome)
    (postOrderFails : Bool) : ExecuteResult :=
  match req.basketId with
  | none =>
      { resp := ⟨400, .errorMsg ERROR_BASKET_ID_NOT_PROVIDED⟩
        logs := []
        store := st }
  | some bid =>
      if resolverFault then
        { resp := ⟨400, .errorMsg (ERROR_WHILE_OBTAINING_BASKET_FOR_USER req.userEmail)⟩
          logs := [⟨.error, ERROR_WHILE_OBTAINING_BASKET_FOR_USER req.userEmail⟩]
          store := st }
      else
        match findBasket st req.user bid with
        | none =>
            { resp := ⟨400, .errorMsg (ERROR_BASKET_NOT_FOUND bid)⟩
              logs := [⟨.error, LOGGER_BASKET_NOT_FOUND bid⟩]
              store := st }
        | some b =>
            let attemptLog : LogEntry :=
              ⟨.info, LOGGER_PAYMENT_APPROVED req.transactionId (toString req.user)⟩
            match pay with
            | .paymentFailure =>
                { resp := ⟨400, .errorMsg ERROR_DURING_PAYMENT_HANDLING⟩
                  logs := [attemptLog]
                  store := st }
            | .unanticipatedFailure =>
                { resp := ⟨400, .errorMsg ERROR_DURING_PAYMENT_HANDLING⟩
                  logs := [attemptLog, ⟨.error, LOGGER_PAYMENT_FAILED_FOR_BASKET b.id⟩]
                  store := st }
            | .redundantNotice =>
                { resp := ⟨409, .errorMsg COURSE_ALREADY_PAID_ON_DEVICE⟩
                  logs := [attemptLog]
                  store := st }
            | .success =>
                if 0 < countOrders st b.id then
                  { resp := ⟨400, .errorMsg ERROR_DURING_ORDER_CREATION⟩
                    logs := [attemptLog, ⟨.error, ORDER_FAILURE_LOG req.processorTitle b.id⟩]
                    store := st }
                else
                  match placement with
                  | .placed =>
                      let st' : Store :=
                        { baskets := st.baskets.map (fun x =>
                            if x.id == b.id then { x with status := .Submitted } else x)
                          orders := newOrder b :: st.orders }
                      if postOrderFails then
                        { resp := ⟨200, .errorMsg ERROR_DURING_POST_ORDER_OP⟩
                          logs := [attemptLog]
                          store := st' }
                      else
                        { resp := ⟨200, .orderData (newOrder b)⟩
                          logs := [attemptLog]
                          store := st' }
                  | _ =>
                      { resp := ⟨400, .errorMsg ERROR_DURING_ORDER_CREATION⟩
                        logs := [attemptLog, ⟨.error, ORDER_FAILURE_LOG req.processorTitle b.id⟩]
                        store := st }

/-- Modelled from the spec: the payment page url returned by
`MobileCheckoutView` (views.py is not in the snapshot) addresses the
execution endpoint (`/execute/` in urls.py) for the processor/basket pair. -/
def paymentPageUrl (processorName : String) (basketId : Nat) : String :=
  "/execute/?basket_id=" ++ toString basketId ++ "&payment_processor=" ++ processorName

/-- Freeze the basket with the given id: its status becomes `Frozen`
(idempotent: an already-frozen basket stays frozen, with no error). -/
def freezeBasket (st : Store) (basketId : Nat) : Store :=
  { st with baskets := st.baskets.map (fun x =>
      if x.id == basketId then { x with status := .Frozen } else x) }

/-- Modelled from the spec: `MobileCheckoutView` (views.py is not in the
snapshot).  The CheckoutInitiator of spec section 4.1: resolve the basket
owned by the requesting user (missing id and not-found are classified 400
errors with the `constants.py` messages), freeze it, and return 200 with the
payment page url for this processor/basket pair and the processor name. -/
def checkoutView (st : Store) (user : Nat) (basketId : Option Nat)
    (processorName : String) : HttpResponse × Store :=
  match basketId with
  | none => (⟨400, .errorMsg ERROR_BASKET_ID_NOT_PROVIDED⟩, st)
  | some bid =>
      match findBasket st user bid with
      | none => (⟨400, .errorMsg (ERROR_BASKET_NOT_FOUND bid)⟩, st)
      | some _ =>
          (⟨200, .checkoutData (paymentPageUrl processorName bid) processorName⟩,
           freezeBasket st bid)

/-- Status of the first basket with the given id in the store, if any. -/
def basketStatus (st : Store) (basketId : Nat) : Option BasketStatus :=
  (st.baskets.find? (fun x => x.id == basketId)).map (fun b => b.status)

/-- A catalog product: its SKU and whether it is currently available for
purchase. -/
structure Product where
  sku : String
  available : Bool
deriving DecidableEq, Repr

/-- The caller's mobile basket: its line SKUs and status. -/
structure MobileBasket where
  lines : List String
  status : BasketStatus
deriving DecidableEq, Repr

/-- Products among the requested SKUs that resolve in the catalog. -/
def resolveSkus (catalog : List Product) (skus : List String) : List Product :=
  skus.filterMap (fun s => catalog.find? (fun p => p.sku == s))

/-- Requested SKUs that do not resolve in the catalog. -/
def unknownSkus (catalog : List Product) (skus : List String) : List String :=
  skus.filter (fun s => (catalog.find? (fun p => p.sku == s)).isNone)

/-- Resolved products that the user has not already purchased. -/
def unpurchasedProducts (catalog : List Product) (purchased : List String)
    (skus : List String) : List Product :=
  (resolveSkus catalog skus).filter (fun p => !(purchased.contains p.sku))

/-- Modelled from the spec: `MobileBasketAddItemsView` (views.py is not in
the snapshot).  The add-to-basket flow of spec section 4.5: fail 400 on an
empty SKU set; fail 400 listing unknown SKUs; drop products the user already
purchased, failing 406 when none remain; drop products not available for
sale, failing 400 when none remain; otherwise append the remaining products
as lines of the caller's basket and return 200.  The basket's status is
never touched by this view. -/
def addItemsView (catalog : List Product) (purchased : List String)
    (basket : MobileBasket) (skus : List String) :
    HttpResponse × MobileBasket :=
  if skus.isEmpty then
    (⟨400, .errorMsg "No SKUs provided."⟩, basket)
  else if !(unknownSkus catalog skus).isEmpty then
    (⟨400, .errorMsg (PRODUCTS_DO_NOT_EXIST (unknownSkus catalog skus))⟩, basket)
  else
    let keep := unpurchasedProducts catalog purchased skus
    if keep.isEmpty then
      (⟨406, .errorMsg ERROR_ALREADY_PURCHASED⟩, basket)
    else
      let sellable := keep.filter (fun p => p.available)
      if sellable.isEmpty then
        (⟨400, .errorMsg NO_PRODUCT_AVAILABLE⟩, basket)
      else
        let newLines := basket.lines ++ sellable.map (fun p => p.sku)
        (⟨200, .basketSummary newLines⟩, { basket with lines := newLines })

/- Concrete fixtures mirroring the test-suite setup: one user (id 7) owning
one frozen basket (id 1), and an Android-style execute request for it. -/

def sampleBasket : Basket := { id := 1, owner := 7, status := .Frozen }

def sampleStore : Store := { baskets := [sampleBasket], orders := [] }

def sampleStoreOneOrder : Store :=
  { baskets := [sampleBasket], orders := [{ number := 1, basketId := 1 }] }

def sampleReq : ExecuteRequest :=
  { basketId := some 1, transactionId := "transactionId.android.test.purchased"
    user := 7, userEmail := "user7", processorTitle := "Android-Iap" }

def noBasketIdReq : ExecuteRequest :=
  { sampleReq with basketId := none }

/-- C5: basket resolution classifies its failures into exactly three
outcomes: a missing basket id yields 400 with the basket-id-not-provided
message; an id that does not resolve for the authenticated user yields 400
with the basket-not-found message plus an error log containing the id; any
other resolution exception yields 400 with the unexpected-exception message
plus an error log with the user identity. -/
theorem c5_basket_resolution_failures (st : Store) (req : ExecuteRequest)
    (fault : Bool) (pay : PaymentOutcome) (pl : PlacementOutcome) (po : Bool)
    (bid : Nat) :
    (req.basketId = none →
      executeView st req fault pay pl po =
        ⟨⟨400, .errorMsg ERROR_BASKET_ID_NOT_PROVIDED⟩, [], st⟩) ∧
    (req.basketId = some bid → fault = false →
      findBasket st req.user bid = none →
      executeView st req fault pay pl po =
        ⟨⟨400, .errorMsg (ERROR_BASKET_NOT_FOUND bid)⟩,
         [⟨.error, LOGGER_BASKET_NOT_FOUND bid⟩], st⟩) ∧
    (req.basketId = some bid → fault = true →
      executeView st req fault pay pl po =
        ⟨⟨400, .errorMsg (ERROR_WHILE_OBTAINING_BASKET_FOR_USER req.userEmail)⟩,
         [⟨.error, ERROR_WHILE_OBTAINING_BASKET_FOR_USER req.userEmail⟩], st⟩) := by
  refine ⟨fun h => ?_, fun h hf hn => ?_, fun h hf => ?_⟩
  · simp [executeView, h]
  · simp [executeView, h, hf, hn]
  · simp [executeView, h, hf]

/-- Witness for C5 at the concrete fixtures: a request without a basket id,
a request for an id with no matching basket, and a resolver fault. -/
theorem c5_witness :
    executeView sampleStore noBasketIdReq false .success .placed false =
      ⟨⟨400, .errorMsg ERROR_BASKET_ID_NOT_PROVIDED⟩, [], sampleStore⟩ ∧
    executeView sampleStore { sampleReq with basketId := some 2 } false
        .success .placed false =
      ⟨⟨400, .errorMsg (ERROR_BASKET_NOT_FOUND 2)⟩,
       [⟨.error, LOGGER_BASKET_NOT_FOUND 2⟩], sampleStore⟩ ∧
    executeView sampleStore sampleReq true .success .placed false =
      ⟨⟨400, .errorMsg (ERROR_WHILE_OBTAINING_BASKET_FOR_USER "user7")⟩,
       [⟨.error, ERROR_WHILE_OBTAINING_BASKET_FOR_USER "user7"⟩], sampleStore⟩ :=
  ⟨(c5_basket_resolution_failures sampleStore noBasketIdReq false .success
      .placed false 1).1 rfl,
   (c5_basket_resolution_failures sampleStore
      { sampleReq with basketId := some 2 } false .success .placed false 2).2.1
      rfl rfl rfl,
   (c5_basket_resolution_failures sampleStore sampleReq true .success .placed
      false 1).2.2 rfl rfl⟩

/-- C4: when the payment-handling step fails — with a classified payment
error or with any unclassified exception — the client receives the same 400
response with the payment-handling-error message and no order is created
(the store is unchanged); the unclassified case differs only by one extra
error-level log entry carrying the basket id. -/
theorem c4_payment_failure_uniform_response (st : Store) (req : ExecuteRequest)
    (pl : PlacementOutcome) (po : Bool) (bid : Nat) (b : Basket)
    (hb : req.basketId = some bid) (hfind : findBasket st req.user bid = some b) :
    (executeView st req false .paymentFailure pl po).resp =
      ⟨400, .errorMsg ERROR_DURING_PAYMENT_HANDLING⟩ ∧
    (executeView st req false .unanticipatedFailure pl po).resp =
      (executeView st req false .paymentFailure pl po).resp ∧
    (executeView st req false .paymentFailure pl po).store = st ∧
    (executeView st req false .unanticipatedFailure pl po).store = st ∧
    (executeView st req false .unanticipatedFailure pl po).logs =
      (executeView st req false .paymentFailure pl po).logs ++
        [⟨.error, LOGGER_PAYMENT_FAILED_FOR_BASKET b.id⟩] := by
  simp [executeView, hb, hfind]

/-- Witness for C4 at the concrete fixtures. -/
theorem c4_witness :
    (executeView sampleStore sampleReq false .paymentFailure .placed false).resp =
      ⟨400, .errorMsg ERROR_DURING_PAYMENT_HANDLING⟩ ∧
    (executeView sampleStore sampleReq false .unanticipatedFailure .placed false).resp =
      (executeView sampleStore sampleReq false .paymentFailure .placed false).resp ∧
    (executeView sampleStore sampleReq false .paymentFailure .placed false).store =
      sampleStore ∧
    (executeView sampleStore sampleReq false .unanticipatedFailure .placed false).store =
      sampleStore ∧
    (executeView sampleStore sampleReq false .unanticipatedFailure .placed false).logs =
      (executeView sampleStore sampleReq false .paymentFailure .placed false).logs ++
        [⟨.error, LOGGER_PAYMENT_FAILED_FOR_BASKET sampleBasket.id⟩] :=
  c4_payment_failure_uniform_response sampleStore sampleReq .placed false 1
    sampleBasket rfl rfl

/-- C7: every execute request that reaches the payment-handling step emits
the info-level attempt log with the transaction id and the payer id as its
first log record, whatever the payment outcome turns out to be — in
particular also when payment handling fails with a classified payment
error. -/
theorem c7_attempt_log_fires_first (st : Store) (req : ExecuteRequest)
    (pay : PaymentOutcome) (pl : PlacementOutcome) (po : Bool) (bid : Nat)
    (b : Basket) (hb : req.basketId = some bid)
    (hfind : findBasket st req.user bid = some b) :
    (executeView st req false pay pl po).logs.head? =
      some ⟨.info, LOGGER_PAYMENT_APPROVED req.transactionId (toString req.user)⟩ := by
  cases pay <;> simp [executeView, hb, hfind]
  split
  · rfl
  · cases pl
    · cases po <;> rfl
    · rfl
    · rfl

/-- Witness for C7: the attempt log is first when payment then fails with a
classified payment error at the concrete fixtures. -/
theorem c7_witness :
    (executeView sampleStore sampleReq false .paymentFailure .placed false).logs.head? =
      some ⟨.info, LOGGER_PAYMENT_APPROVED sampleReq.transactionId (toString sampleReq.user)⟩ :=
  c7_attempt_log_fires_first sampleStore sampleReq .paymentFailure .placed false
    1 sampleBasket rfl rfl

/-- C6: when payment has been recorded but order placement fails — with the
classified cannot-place signal or with any other placement exception — the
response is the same 400 with the order-creation-error message, an
error-level log names the processor and the basket id with the
payment-received-but-no-order text, and the two failure kinds produce
identical responses and logs, so the client cannot distinguish them. -/
theorem c6_order_placement_failure (st : Store) (req : ExecuteRequest)
    (po : Bool) (bid : Nat) (b : Basket) (hb : req.basketId = some bid)
    (hfind : findBasket st req.user bid = some b) :
    (executeView st req false .success .cannotPlace po).resp =
      ⟨400, .errorMsg ERROR_DURING_ORDER_CREATION⟩ ∧
    ⟨.error, ORDER_FAILURE_LOG req.processorTitle b.id⟩ ∈
      (executeView st req false .success .cannotPlace po).logs ∧
    executeView st req false .success .unanticipatedFailure po =
      executeView st req false .success .cannotPlace po := by
  have h1 : executeView st req false .success .cannotPlace po =
      { resp := ⟨400, .errorMsg ERROR_DURING_ORDER_CREATION⟩
        logs := [⟨.info, LOGGER_PAYMENT_APPROVED req.transactionId (toString req.user)⟩,
                 ⟨.error, ORDER_FAILURE_LOG req.processorTitle b.id⟩]
        store := st } := by
    simp only [executeView, hb, hfind]
    rw [if_neg (by exact fun h => Bool.false_ne_true h)]
    split <;> rfl
  have h2 : executeView st req false .success .unanticipatedFailure po =
      { resp := ⟨400, .errorMsg ERROR_DURING_ORDER_CREATION⟩
        logs := [⟨.info, LOGGER_PAYMENT_APPROVED req.transactionId (toString req.user)⟩,
                 ⟨.error, ORDER_FAILURE_LOG req.processorTitle b.id⟩]
        store := st } := by
    simp only [executeView, hb, hfind]
    rw [if_neg (by exact fun h => Bool.false_ne_true h)]
    split <;> rfl
  refine ⟨by rw [h1], by rw [h1]; simp, by rw [h1, h2]⟩

/-- Witness for C6 at the concrete fixtures. -/
theorem c6_witness :
    (executeView sampleStore sampleReq false .success .cannotPlace false).resp =
      ⟨400, .errorMsg ERROR_DURING_ORDER_CREATION⟩ ∧
    ⟨.error, ORDER_FAILURE_LOG sampleReq.processorTitle sampleBasket.id⟩ ∈
      (executeView sampleStore sampleReq false .success .cannotPlace false).logs ∧
    executeView sampleStore sampleReq false .success .unanticipatedFailure false =
      executeView sampleStore sampleReq false .success .cannotPlace false :=
  c6_order_placement_failure sampleStore sampleReq false 1 sampleBasket rfl rfl

/-- C2: an execute request whose receipt the store validator accepts
(payment succeeds) and whose basket id resolves to the requesting user's
frozen basket creates exactly one order for that basket and returns 200 with
the serialized order as the order-data body. -/
theorem c2_successful_execution (st : Store) (req : ExecuteRequest)
    (bid : Nat) (b : Basket) (hb : req.basketId = some bid)
    (hfind : findBasket st req.user bid = some b)
    (_hfrozen : b.status = .Frozen) (hnone : countOrders st b.id = 0) :
    (executeView st req false .success .placed false).resp =
      ⟨200, .orderData (newOrder b)⟩ ∧
    countOrders (executeView st req false .success .placed false).store b.id = 1 := by
  simp only [countOrders] at hnone
  constructor
  · simp [executeView, hb, hfind, countOrders, hnone]
  · simp [executeView, hb, hfind, countOrders, hnone, newOrder]

/-- Witness for C2 at the concrete fixtures. -/
theorem c2_witness :
    (executeView sampleStore sampleReq false .success .placed false).resp =
      ⟨200, .orderData (newOrder sampleBasket)⟩ ∧
    countOrders (executeView sampleStore sampleReq false .success .placed
      false).store sampleBasket.id = 1 :=
  c2_successful_execution sampleStore sampleReq 1 sampleBasket rfl rfl rfl rfl

/-- C3: when payment succeeds and the order is placed but a post-order hook
raises, the order still exists afterward and the response keeps status 200
(never 400 or 500) with the distinct post-order-error body in place of the
success body. -/
theorem c3_post_order_failure_nonfatal (st : Store) (req : ExecuteRequest)
    (bid : Nat) (b : Basket) (hb : req.basketId = some bid)
    (hfind : findBasket st req.user bid = some b)
    (hnone : countOrders st b.id = 0) :
    (executeView st req false .success .placed true).resp =
      ⟨200, .errorMsg ERROR_DURING_POST_ORDER_OP⟩ ∧
    countOrders (executeView st req false .success .placed true).store b.id = 1 := by
  simp only [countOrders] at hnone
  constructor
  · simp [executeView, hb, hfind, countOrders, hnone]
  · simp [executeView, hb, hfind, countOrders, hnone, newOrder]

/-- Witness for C3 at the concrete fixtures. -/
theorem c3_witness :
    (executeView sampleStore sampleReq false .success .placed true).resp =
      ⟨200, .errorMsg ERROR_DURING_POST_ORDER_OP⟩ ∧
    countOrders (executeView sampleStore sampleReq false .success .placed
      true).store sampleBasket.id = 1 :=
  c3_post_order_failure_nonfatal sampleStore sampleReq 1 sampleBasket rfl rfl rfl

/-- C1: once exactly one order exists for a basket, resubmitting the
receipt/basket to the execute endpoint never creates a second order —
whatever the resolver, payment, placement and post-order outcomes — and the
submission on which the payment layer reports the receipt as already
consumed returns 409 with the already-paid-on-device message, leaving
exactly one order for the basket. -/
theorem c1_at_most_one_order_per_basket (st : Store) (req : ExecuteRequest)
    (bid : Nat) (b : Basket) (pl : PlacementOutcome) (po : Bool)
    (hb : req.basketId = some bid)
    (hfind : findBasket st req.user bid = some b)
    (hone : countOrders st b.id = 1) :
    (∀ (fault : Bool) (pay : PaymentOutcome) (pl' : PlacementOutcome)
        (po' : Bool),
      countOrders (executeView st req fault pay pl' po').store b.id = 1) ∧
    (executeView st req false .redundantNotice pl po).resp =
      ⟨409, .errorMsg COURSE_ALREADY_PAID_ON_DEVICE⟩ := by
  constructor
  · intro fault pay pl' po'
    have hpos : 0 < countOrders st b.id := by rw [hone]; exact Nat.zero_lt_one
    cases fault
    · cases pay <;> simp [executeView, hb, hfind, hpos] <;> exact hone
    · simp [executeView, hb]
      exact hone
  · simp [executeView, hb, hfind]

/-- Witness for C1: a store already holding the one order for basket 1. -/
theorem c1_witness :
    (∀ (fault : Bool) (pay : PaymentOutcome) (pl' : PlacementOutcome)
        (po' : Bool),
      countOrders (executeView sampleStoreOneOrder sampleReq fault pay pl'
        po').store sampleBasket.id = 1) ∧
    (executeView sampleStoreOneOrder sampleReq false .redundantNotice .placed
      false).resp = ⟨409, .errorMsg COURSE_ALREADY_PAID_ON_DEVICE⟩ :=
  c1_at_most_one_order_per_basket sampleStoreOneOrder sampleReq 1 sampleBasket
    .placed false rfl rfl rfl

/-- Helper: after mapping the freeze update over a basket list that contains
some basket with the given id, the first basket found under that id has
status `Frozen`. -/
theorem find_status_after_freeze (l : List Basket) (bid : Nat) (x : Basket)
    (hmem : x ∈ l) (hx : (x.id == bid) = true) :
    ((l.map (fun y => if y.id == bid then { y with status := BasketStatus.Frozen } else y)).find?
        (fun y => y.id == bid)).map (fun y => y.status) = some BasketStatus.Frozen := by
  induction l with
  | nil => cases hmem
  | cons a l ih =>
      by_cases ha : (a.id == bid) = true
      · simp only [List.map_cons, if_pos ha]
        rw [List.find?_cons_of_pos _ (by simpa using ha)]
        rfl
      · rcases List.mem_cons.mp hmem with rfl | hmem'
        · exact absurd hx ha
        · simp only [List.map_cons, if_neg ha]
          rw [List.find?_cons_of_neg _ (by simpa using ha)]
          exact ih hmem'

/-- Helper: freezing a store that holds a basket under the given id leaves
that basket with status `Frozen`. -/
theorem basketStatus_freezeBasket (st : Store) (bid : Nat) (x : Basket)
    (hmem : x ∈ st.baskets) (hx : (x.id == bid) = true) :
    basketStatus (freezeBasket st bid) bid = some BasketStatus.Frozen := by
  have := find_status_after_freeze st.baskets bid x hmem hx
  simpa [basketStatus, freezeBasket] using this

/-- C8: a checkout request whose basket id resolves to a basket owned by the
requesting user leaves the basket `Frozen` (whatever its prior status, so
freezing an already-frozen basket is not an error) and returns 200 with the
payment page url — which addresses the execute endpoint — and the processor
name; when no matching basket exists the response is 400 with the
basket-not-found message. -/
theorem c8_checkout_freezes_and_responds (st : Store) (user : Nat) (bid : Nat)
    (p : String) :
    (∀ b : Basket, findBasket st user bid = some b →
      checkoutView st user (some bid) p =
        (⟨200, .checkoutData (paymentPageUrl p bid) p⟩, freezeBasket st bid) ∧
      basketStatus (freezeBasket st bid) bid = some BasketStatus.Frozen ∧
      ∃ rest, paymentPageUrl p bid = "/execute/" ++ rest) ∧
    (findBasket st user bid = none →
      checkoutView st user (some bid) p =
        (⟨400, .errorMsg (ERROR_BASKET_NOT_FOUND bid)⟩, st)) := by
  constructor
  · intro b hfind
    have hfind' : st.baskets.find? (fun y => y.id == bid && y.owner == user) = some b := hfind
    have hmem : b ∈ st.baskets := List.mem_of_find?_eq_some hfind'
    have hp : (b.id == bid && b.owner == user) = true := by
      simpa using List.find?_some hfind'
    have hsplit : (b.id == bid) = true ∧ (b.owner == user) = true := by
      simpa [Bool.and_eq_true] using hp
    refine ⟨by simp [checkoutView, hfind], ?_, ⟨_, rfl⟩⟩
    exact basketStatus_freezeBasket st bid b hmem hsplit.1
  · intro hnone
    simp [checkoutView, hnone]

/- Fixtures for the checkout and add-to-basket endpoints: an open basket
owned by user 7, and a three-product catalog. -/

def openBasket : Basket := { id := 1, owner := 7, status := .Open }

def storeOpen : Store := { baskets := [openBasket], orders := [] }

def emptyStore : Store := { baskets := [], orders := [] }

/-- C8 witness: checking out the open basket of user 7 freezes it and
returns 200; a store with no baskets yields the 400 not-found response. -/
theorem c8_witness :
    (checkoutView storeOpen 7 (some 1) "android-iap" =
      (⟨200, .checkoutData (paymentPageUrl "android-iap" 1) "android-iap"⟩,
       freezeBasket storeOpen 1) ∧
     basketStatus (freezeBasket storeOpen 1) 1 = some BasketStatus.Frozen ∧
     ∃ rest, paymentPageUrl "android-iap" 1 = "/execute/" ++ rest) ∧
    checkoutView emptyStore 7 (some 1) "android-iap" =
      (⟨400, .errorMsg (ERROR_BASKET_NOT_FOUND 1)⟩, emptyStore) :=
  ⟨(c8_checkout_freezes_and_responds storeOpen 7 1 "android-iap").1 openBasket rfl,
   (c8_checkout_freezes_and_responds emptyStore 7 1 "android-iap").2 rfl⟩

/-- C9: for an add-to-basket request whose SKUs all resolve, if every
requested product was already purchased by the user the response is 406 with
the already-purchased message and nothing is added; if some products survive
the purchased and availability filters, exactly the purchased/unavailable
ones are excluded and the rest are appended as basket lines with a 200
response, so the line count grows by exactly the number of kept products. -/
theorem c9_filters_purchased_and_unavailable (catalog : List Product)
    (purchased : List String) (basket : MobileBasket) (skus : List String)
    (hne : skus ≠ []) (hknown : unknownSkus catalog skus = []) :
    (unpurchasedProducts catalog purchased skus = [] →
      addItemsView catalog purchased basket skus =
        (⟨406, .errorMsg ERROR_ALREADY_PURCHASED⟩, basket)) ∧
    ((unpurchasedProducts catalog purchased skus).filter
        (fun p => p.available) ≠ [] →
      addItemsView catalog purchased basket skus =
        (⟨200, .basketSummary (basket.lines ++
            ((unpurchasedProducts catalog purchased skus).filter
              (fun p => p.available)).map (fun p => p.sku))⟩,
         { basket with lines := basket.lines ++
            ((unpurchasedProducts catalog purchased skus).filter
              (fun p => p.available)).map (fun p => p.sku) }) ∧
      ((addItemsView catalog purchased basket skus).2).lines.length =
        basket.lines.length +
          ((unpurchasedProducts catalog purchased skus).filter
            (fun p => p.available)).length) := by
  constructor
  · intro hall
    simp [addItemsView, List.isEmpty_iff, hne, hknown, hall]
  · intro hsome
    have hkeep : unpurchasedProducts catalog purchased skus ≠ [] := by
      intro h
      rw [h] at hsome
      simp at hsome
    have heq : addItemsView catalog purchased basket skus =
        (⟨200, .basketSummary (basket.lines ++
            ((unpurchasedProducts catalog purchased skus).filter
              (fun p => p.available)).map (fun p => p.sku))⟩,
         { basket with lines := basket.lines ++
            ((unpurchasedProducts catalog purchased skus).filter
              (fun p => p.available)).map (fun p => p.sku) }) := by
      simp [addItemsView, List.isEmpty_iff, hne, hknown, hkeep, hsome]
    refine ⟨heq, ?_⟩
    rw [heq]
    simp

/- Fixtures for the add-to-basket endpoint: a catalog of three available
products and an empty open basket. -/

def catalogW : List Product :=
  [{ sku := "sku1", available := true }, { sku := "sku2", available := true },
   { sku := "sku3", available := true }]

def basketW : MobileBasket := { lines := [], status := .Open }

/-- C9 witness: requesting two already-purchased products yields 406 and no
change; requesting three products of which one is purchased adds exactly the
other two lines with a 200 response. -/
theorem c9_witness :
    addItemsView catalogW ["sku1", "sku2"] basketW ["sku1", "sku2"] =
      (⟨406, .errorMsg ERROR_ALREADY_PURCHASED⟩, basketW) ∧
    addItemsView catalogW ["sku3"] basketW ["sku1", "sku2", "sku3"] =
      (⟨200, .basketSummary (basketW.lines ++
          ((unpurchasedProducts catalogW ["sku3"] ["sku1", "sku2", "sku3"]).filter
            (fun p => p.available)).map (fun p => p.sku))⟩,
       { basketW with lines := basketW.lines ++
          ((unpurchasedProducts catalogW ["sku3"] ["sku1", "sku2", "sku3"]).filter
            (fun p => p.available)).map (fun p => p.sku) }) ∧
    ((addItemsView catalogW ["sku3"] basketW ["sku1", "sku2", "sku3"]).2).lines.length =
      basketW.lines.length +
        ((unpurchasedProducts catalogW ["sku3"] ["sku1", "sku2", "sku3"]).filter
          (fun p => p.available)).length :=
  ⟨(c9_filters_purchased_and_unavailable catalogW ["sku1", "sku2"] basketW
      ["sku1", "sku2"] (by simp) rfl).1 rfl,
   (c9_filters_purchased_and_unavailable catalogW ["sku3"] basketW
      ["sku1", "sku2", "sku3"] (by simp) rfl).2 (by decide)⟩

/-- C10: the add-to-basket view never changes the basket's status: a basket
that is `Open` before the request — including requests where some products
are filtered out — is still `Open` afterward; only checkout freezes it. -/
theorem c10_add_items_keeps_basket_open (catalog : List Product)
    (purchased : List String) (basket : MobileBasket) (skus : List String)
    (h : basket.status = .Open) :
    ((addItemsView catalog purchased basket skus).2).status = .Open := by
  simp only [addItemsView]
  repeat' split
  all_goals exact h

/-- C10 witness: adding an available product to the empty open basket leaves
it open. -/
theorem c10_witness :
    ((addItemsView catalogW [] basketW ["sku1"]).2).status = .Open :=
  c10_add_items_keeps_basket_open catalogW [] basketW ["sku1"] rfl
